import Mathlib

/-!
Shallow embedding of the Trade Analysis API (src/app.py).

Conventions of the embedding:
- A Python dict row from the external store is a `Trade` with optional
  fields; `dict.get(k)` is the `Option` value and `dict.get(k, d)` is
  `Option.getD`.
- Python numbers (floats) are modelled as `ℚ`; `/` raising
  `ZeroDivisionError` is modelled by `pyDiv` returning `Option ℚ`.
- Python truthiness of an optional string (`if trade.get(k):`) is
  `truthyStr`: present and non-empty.
- `random.choice(l)` is modelled by an externally supplied natural
  number `choice`, picking index `choice % l.length`; on an empty list
  `List.get?` returns `none`, modelling the `IndexError` raise.
- Fallible code returns `Option`/`Except`; a `none` means the Python
  code would raise at that point.
- `list(set(...))` is modelled by `List.dedup` of the mapped list: the
  Python value is a set, so only membership and cardinality are
  meaningful; `dedup` realises exactly that set as a duplicate-free list.
-/

/-- A row of the external "trades" store: fields `pnl`, `trade_type`,
`notes`, each possibly absent (src/app.py reads them with `.get`). -/
structure Trade where
  pnl : Option ℚ
  trade_type : Option String
  notes : Option String
deriving DecidableEq, Repr

/-- The `TradeAnalysisResult` pydantic model of src/app.py. -/
structure TradeAnalysisResult where
  win_rate : ℚ
  avg_profit_loss : ℚ
  strategies : List String
  strengths : List String
  weaknesses : List String
  suggestions : List String
deriving DecidableEq, Repr

/-- A chat message (`Message` model of src/app.py). -/
structure Message where
  role : String
  content : String
deriving DecidableEq, Repr

/-- The `ChatRequest` model of src/app.py. -/
structure ChatRequest where
  messages : List Message
  user_id : String
deriving DecidableEq, Repr

/-- Python `str.strip()`: drop leading and trailing whitespace. -/
def pyStrip (s : String) : String :=
  String.mk (((s.data.dropWhile Char.isWhitespace).reverse.dropWhile
    Char.isWhitespace).reverse)

/-- Python `str.lower()`: lower-case every character. -/
def pyLower (s : String) : String :=
  String.mk (s.data.map Char.toLower)

/-- Python truthiness of an optional string: `None` and `""` are falsy. -/
def truthyStr : Option String → Bool
  | none => false
  | some s => !s.data.isEmpty

/-- Python `/` on numbers: raises `ZeroDivisionError` when the divisor
is zero, modelled as `none`. -/
def pyDiv (a b : ℚ) : Option ℚ :=
  if b = 0 then none else some (a / b)

/-- Python substring test `pat in s` (the `in` operator on strings). -/
def containsSub (s pat : String) : Bool :=
  s.data.tails.any fun t => pat.data.isPrefixOf t

/-- The fixed onboarding suggestion returned for an empty trade list. -/
def onboardingMessage : String :=
  "Start recording your trades to get personalized analysis."

/-- The space-joined concatenation of the non-empty `notes` fields:
`" ".join([trade.get('notes', '') for trade in trades if trade.get('notes')])`. -/
def all_notes (trades : List Trade) : String :=
  " ".intercalate ((trades.filter fun t => truthyStr t.notes).map fun t => t.notes.getD "")

/-- The trades with strictly positive `pnl` (missing `pnl` read as 0):
`[trade for trade in trades if trade.get('pnl', 0) > 0]`. -/
def profitable_trades (trades : List Trade) : List Trade :=
  trades.filter fun t => t.pnl.getD 0 > 0

/-- The win-rate expression of src/app.py line 73, ternary guard included:
`len(profitable_trades) / len(trades) if trades else 0`. -/
def win_rate_expr (trades : List Trade) : Option ℚ :=
  if !trades.isEmpty then
    pyDiv ((profitable_trades trades).length : ℚ) (trades.length : ℚ)
  else some 0

/-- The average-P&L expression of src/app.py line 77, ternary guard included:
`total_pnl / len(trades) if trades else 0`. -/
def avg_pnl_expr (trades : List Trade) : Option ℚ :=
  if !trades.isEmpty then
    pyDiv ((trades.map fun t => t.pnl.getD 0).sum) (trades.length : ℚ)
  else some 0

/-- The strategies set of src/app.py line 80:
`list(set(trade.get('trade_type', '').strip() for trade in trades if trade.get('trade_type')))`. -/
def strategies_of (trades : List Trade) : List String :=
  (((trades.filter fun t => truthyStr t.trade_type).map
    fun t => pyStrip (t.trade_type.getD ""))).dedup

/-- `analyze_trades` of src/app.py.  Returns `none` exactly when the
Python function would raise (it never does; see the safety claim). -/
def analyze_trades (trades : List Trade) : Option TradeAnalysisResult :=
  if trades.isEmpty then
    some { win_rate := 0, avg_profit_loss := 0, strategies := [],
           strengths := [], weaknesses := [],
           suggestions := [onboardingMessage] }
  else
    (win_rate_expr trades).bind fun win_rate =>
    (avg_pnl_expr trades).bind fun avg_pnl =>
    let strategies := strategies_of trades
    let notes := all_notes trades
    let emotional : Bool := !notes.data.isEmpty &&
      (containsSub (pyLower notes) "emotion" || containsSub (pyLower notes) "fear" ||
       containsSub (pyLower notes) "greed")
    let planned : Bool := !notes.data.isEmpty && containsSub (pyLower notes) "plan"
    let strengths :=
      (if win_rate > 1/2 then ["Above 50% win rate"] else []) ++
      (if avg_pnl > 0 then ["Positive average P&L"] else []) ++
      (if strategies.length > 2 then
        ["Diverse trading approaches (" ++ toString strategies.length ++
          " different strategies)"] else []) ++
      (if planned then ["Evidence of trade planning in notes"] else [])
    let weaknesses :=
      (if win_rate > 1/2 then [] else ["Below 50% win rate"]) ++
      (if avg_pnl > 0 then [] else ["Negative average P&L"]) ++
      (if emotional then ["Emotional trading noted in multiple trades"] else [])
    let suggestions :=
      (if win_rate > 1/2 then [] else
        ["Focus on improving your win rate by reviewing losing trades"]) ++
      (if avg_pnl > 0 then [] else
        ["Work on improving your average profit per trade"]) ++
      (if strategies.length > 2 then [] else
        ["Consider exploring more trading strategies to diversify your approach"]) ++
      (if emotional then ["Work on emotional discipline during trading"] else [])
    some { win_rate := win_rate, avg_profit_loss := avg_pnl,
           strategies := strategies, strengths := strengths,
           weaknesses := weaknesses, suggestions := suggestions }

/-- Round a rational to the nearest integer, ties to even (the rounding
Python string formatting applies to the scaled value). -/
def roundHalfEven (x : ℚ) : ℤ :=
  if x - ⌊x⌋ < 1/2 then ⌊x⌋
  else if x - ⌊x⌋ > 1/2 then ⌊x⌋ + 1
  else if ⌊x⌋ % 2 = 0 then ⌊x⌋ else ⌊x⌋ + 1

/-- Left-pad a digit string with zeros to the given width. -/
def padLeftZeros (width : Nat) (s : String) : String :=
  String.mk (List.replicate (width - s.length) '0') ++ s

/-- Python fixed-point formatting `f"{x:.ndf}"`, modelled on `ℚ`. -/
def formatFixed (nd : Nat) (x : ℚ) : String :=
  let scaled := roundHalfEven (x * (10 : ℚ) ^ nd)
  (if x < 0 then "-" else "") ++ toString (scaled.natAbs / 10 ^ nd) ++
    (if nd = 0 then "" else "." ++ padLeftZeros nd (toString (scaled.natAbs % 10 ^ nd)))

/-- Python percent formatting `f"{x:.1%}"`: scale by 100, one decimal,
trailing percent sign. -/
def formatPct1 (x : ℚ) : String :=
  formatFixed 1 (x * 100) ++ "%"

/-- Python `', '.join(l)`. -/
def commaJoin (l : List String) : String :=
  ", ".intercalate l

/-- The guarded first suggestion used by the second default template:
`trade_analysis.suggestions[0] if trade_analysis.suggestions else
'maintaining a trading journal'`.  The indexing raises (is `none`) only
on an empty list, which the truthiness guard excludes. -/
def default_suggestion (a : TradeAnalysisResult) : Option String :=
  if !a.suggestions.isEmpty then a.suggestions.get? 0
  else some "maintaining a trading journal"

/-- The four response categories of `generate_coach_response`. -/
inductive Category where
  | win_rate
  | improvement
  | strengths
  | default
deriving DecidableEq, Repr

/-- First template of the win-rate category. -/
def tmplW1 (a : TradeAnalysisResult) : String :=
  "Your win rate is " ++ formatPct1 a.win_rate ++ ". " ++
    (if a.win_rate > 1/2 then "This is above the 50% mark, which is great! "
     else "This is below 50%, but remember that with a good risk-reward ratio, you can still be profitable. ") ++
    "Focus on the quality of your setups rather than quantity."

/-- Second template of the win-rate category. -/
def tmplW2 (a : TradeAnalysisResult) : String :=
  "Based on your trading history, you\x27re winning " ++ formatPct1 a.win_rate ++
    " of the time. " ++
    "Remember that even the best traders don\x27t win every trade. " ++
    "The key is to ensure your winners are bigger than your losers."

/-- First template of the improvement category. -/
def tmplI1 (a : TradeAnalysisResult) : String :=
  "To improve your trading results, I recommend focusing on these key areas: " ++
    commaJoin (a.suggestions.take 2) ++ ". " ++
    "Keep a detailed trading journal and review it weekly to identify patterns."

/-- Second template of the improvement category. -/
def tmplI2 (a : TradeAnalysisResult) : String :=
  "The path to improvement starts with consistency and discipline. " ++
    "Based on your trades, I suggest working on: " ++
    commaJoin (a.suggestions.take 2) ++ ". " ++
    "Consider setting specific, measurable goals for each trading session."

/-- First template of the strengths category. -/
def tmplS1 (a : TradeAnalysisResult) : String :=
  "Your strengths as a trader include: " ++ commaJoin a.strengths ++ ". " ++
    "Continue to build on these while addressing your areas for improvement."

/-- Second template of the strengths category. -/
def tmplS2 (a : TradeAnalysisResult) : String :=
  "You\x27re doing well with " ++ commaJoin a.strengths ++ ". " ++
    "These are solid foundations to build upon. Consider focusing next on your risk management approach."

/-- First template of the default category. -/
def tmplD1 (a : TradeAnalysisResult) : String :=
  "Looking at your trading data with a win rate of " ++ formatPct1 a.win_rate ++
    " and average P&L of $" ++ formatFixed 2 a.avg_profit_loss ++ ", " ++
    "I recommend focusing on: " ++ commaJoin (a.suggestions.take 2) ++ ". " ++
    "Would you like more specific advice on a particular aspect of your trading?"

/-- Second template of the default category; `ds` is the guarded first
suggestion `default_suggestion`. -/
def tmplD2 (a : TradeAnalysisResult) (ds : String) : String :=
  "Based on your trading history, I see both strengths and areas for improvement. " ++
    "Your win rate is " ++ formatPct1 a.win_rate ++
    ", and I\x27d suggest focusing on " ++ ds ++ ". " ++
    "What specific aspect of your trading would you like to discuss?"

/-- The `responses` dictionary of `generate_coach_response`, as a map
from category to its template list. -/
def coachResponses (a : TradeAnalysisResult) (ds : String) : Category → List String
  | Category.win_rate => [tmplW1 a, tmplW2 a]
  | Category.improvement => [tmplI1 a, tmplI2 a]
  | Category.strengths => [tmplS1 a, tmplS2 a]
  | Category.default => [tmplD1 a, tmplD2 a ds]

/-- The keyword classification of src/app.py lines 167-174: first
matching keyword set in priority order, on the lower-cased message. -/
def coachCategory (user_message : String) : Category :=
  if ["win rate", "winning", "success rate"].any
      (fun term => containsSub (pyLower user_message) term) then Category.win_rate
  else if ["improve", "better", "enhance", "increase", "boost"].any
      (fun term => containsSub (pyLower user_message) term) then Category.improvement
  else if ["strength", "good at", "excel", "positive"].any
      (fun term => containsSub (pyLower user_message) term) then Category.strengths
  else Category.default

/-- Python `random.choice(l)`, with the random draw supplied externally
as `choice`; raises (is `none`) exactly on an empty list. -/
def pyChoice (choice : Nat) (l : List String) : Option String :=
  l.get? (choice % l.length)

/-- `generate_coach_response` of src/app.py.  The dictionary of
templates is built first (evaluating the guarded indexing inside the
second default template), then the category is selected and a random
template of that category returned.  `none` marks a Python raise. -/
def generate_coach_response (choice : Nat) (user_message : String)
    (trade_analysis : TradeAnalysisResult) : Option String :=
  (default_suggestion trade_analysis).bind fun ds =>
    pyChoice choice (coachResponses trade_analysis ds (coachCategory user_message))

/-- An HTTP error response (`HTTPException` of FastAPI). -/
structure HTTPException where
  status_code : Nat
  detail : String
deriving DecidableEq, Repr

/-- The process environment, restricted to the two variables
`get_supabase_client` reads. -/
structure Env where
  SUPABASE_URL : Option String
  SUPABASE_SERVICE_KEY : Option String
deriving DecidableEq, Repr

/-- An opaque handle for a constructed Supabase client: the embedding
records only the credentials it was built from. -/
structure SupabaseClient where
  url : String
  key : String
deriving DecidableEq, Repr

/-- `get_supabase_client` of src/app.py: reads the two environment
variables and raises HTTP 500 when either is missing or empty
(Python truthiness), before any client is constructed. -/
def get_supabase_client (env : Env) : Except HTTPException SupabaseClient :=
  if !truthyStr env.SUPABASE_URL || !truthyStr env.SUPABASE_SERVICE_KEY then
    Except.error { status_code := 500, detail := "Missing Supabase credentials" }
  else
    Except.ok { url := env.SUPABASE_URL.getD "", key := env.SUPABASE_SERVICE_KEY.getD "" }

/-- The `/api/trade-analysis` handler.  `fetch` stands for the external
store query `supabase.table("trades").select("*").eq("user_id", user_id)`;
the client dependency is resolved before the handler body runs. -/
def get_trade_analysis (env : Env) (fetch : String → List Trade)
    (user_id : String) : Except HTTPException TradeAnalysisResult :=
  (get_supabase_client env).bind fun _client =>
    match analyze_trades (fetch user_id) with
    | some a => Except.ok a
    | none => Except.error { status_code := 500, detail := "Error analyzing trades" }

/-- The reversed scan of src/app.py lines 198-202: content of the last
message whose role is "user", if any. -/
def last_user_message (messages : List Message) : Option String :=
  (messages.reverse.find? fun m => m.role == "user").map Message.content

/-- The body returned by the `/api/chat` handler: the response text and,
when the analysis pipeline ran, its result. -/
structure ChatResponse where
  response : String
  analysis : Option TradeAnalysisResult
deriving DecidableEq, Repr

/-- The `/api/chat` handler of src/app.py.  After the client dependency,
the last user message is extracted; Python's `if not last_message`
treats both absence and empty content as missing and short-circuits with
a fixed reply before the store is queried.  Otherwise the trades are
fetched, analyzed and a coach response generated; any raise inside the
handler body becomes an HTTP 500. -/
def chat (env : Env) (fetch : String → List Trade) (choice : Nat)
    (req : ChatRequest) : Except HTTPException ChatResponse :=
  (get_supabase_client env).bind fun _client =>
    let last_message := last_user_message req.messages
    if !truthyStr last_message then
      Except.ok { response := "I didn\x27t receive a message to respond to.", analysis := none }
    else
      match analyze_trades (fetch req.user_id) with
      | none => Except.error { status_code := 500, detail := "Error processing chat" }
      | some analysis =>
        match generate_coach_response choice (last_message.getD "") analysis with
        | none => Except.error { status_code := 500, detail := "Error processing chat" }
        | some resp => Except.ok { response := resp, analysis := some analysis }

/-- The win rate as the spec words it: the count of records with
`pnl > 0` (missing `pnl` read as 0) divided by the total count. -/
def spec_win_rate (trades : List Trade) : ℚ :=
  ((trades.countP fun t => t.pnl.getD 0 > 0 : Nat) : ℚ) / (trades.length : ℚ)

/-- The average P&L as the spec words it: the sum of `pnl` (missing
read as 0) divided by the total count. -/
def spec_avg_pnl (trades : List Trade) : ℚ :=
  (trades.map fun t => t.pnl.getD 0).sum / (trades.length : ℚ)

/-- The win-rate field as computed by the code for non-empty input. -/
def code_win_rate (trades : List Trade) : ℚ :=
  ((profitable_trades trades).length : ℚ) / (trades.length : ℚ)

/-- The average-P&L field as computed by the code for non-empty input. -/
def code_avg_pnl (trades : List Trade) : ℚ :=
  ((trades.map fun t => t.pnl.getD 0).sum) / (trades.length : ℚ)

/-- The emotional-notes condition of src/app.py lines 107-108. -/
def emotionalFlag (trades : List Trade) : Bool :=
  !(all_notes trades).data.isEmpty &&
    (containsSub (pyLower (all_notes trades)) "emotion" ||
     containsSub (pyLower (all_notes trades)) "fear" ||
     containsSub (pyLower (all_notes trades)) "greed")

/-- The planning-notes condition of src/app.py lines 107 and 112. -/
def plannedFlag (trades : List Trade) : Bool :=
  !(all_notes trades).data.isEmpty && containsSub (pyLower (all_notes trades)) "plan"

/-- The strengths list produced for non-empty input, one segment per
rule, in the rule order of src/app.py lines 88-113. -/
def strengths_list (trades : List Trade) : List String :=
  (if code_win_rate trades > 1/2 then ["Above 50% win rate"] else []) ++
  (if code_avg_pnl trades > 0 then ["Positive average P&L"] else []) ++
  (if (strategies_of trades).length > 2 then
    ["Diverse trading approaches (" ++ toString (strategies_of trades).length ++
      " different strategies)"] else []) ++
  (if plannedFlag trades then ["Evidence of trade planning in notes"] else [])

/-- The weaknesses list produced for non-empty input, in rule order. -/
def weaknesses_list (trades : List Trade) : List String :=
  (if code_win_rate trades > 1/2 then [] else ["Below 50% win rate"]) ++
  (if code_avg_pnl trades > 0 then [] else ["Negative average P&L"]) ++
  (if emotionalFlag trades then ["Emotional trading noted in multiple trades"] else [])

/-- The suggestions list produced for non-empty input, in rule order. -/
def suggestions_list (trades : List Trade) : List String :=
  (if code_win_rate trades > 1/2 then []
   else ["Focus on improving your win rate by reviewing losing trades"]) ++
  (if code_avg_pnl trades > 0 then []
   else ["Work on improving your average profit per trade"]) ++
  (if (strategies_of trades).length > 2 then []
   else ["Consider exploring more trading strategies to diversify your approach"]) ++
  (if emotionalFlag trades then ["Work on emotional discipline during trading"] else [])

/-- The three-trade example input of the spec: pnl values 10, -5, 20. -/
def trades3 : List Trade :=
  [{ pnl := some 10, trade_type := none, notes := none },
   { pnl := some (-5), trade_type := none, notes := none },
   { pnl := some 20, trade_type := none, notes := none }]

/-- The spec's strategies example: trade_type values "scalp", "scalp ", "". -/
def tradesScalp : List Trade :=
  [{ pnl := none, trade_type := some "scalp", notes := none },
   { pnl := none, trade_type := some "scalp ", notes := none },
   { pnl := none, trade_type := some "", notes := none }]

/-- The analysis record produced for `tradesScalp`. -/
def scalpResult : TradeAnalysisResult :=
  { win_rate := code_win_rate tradesScalp,
    avg_profit_loss := code_avg_pnl tradesScalp,
    strategies := strategies_of tradesScalp,
    strengths := strengths_list tradesScalp,
    weaknesses := weaknesses_list tradesScalp,
    suggestions := suggestions_list tradesScalp }

/-- A single trade whose notes read "complaint". -/
def tradesComplaint : List Trade :=
  [{ pnl := none, trade_type := none, notes := some "complaint" }]

/-- A single trade whose notes mention both greed and a plan. -/
def tradesBoth : List Trade :=
  [{ pnl := none, trade_type := none, notes := some "feeling greedy today, followed my plan" }]

/-- The analysis record produced for `tradesBoth`. -/
def bothResult : TradeAnalysisResult :=
  { win_rate := code_win_rate tradesBoth,
    avg_profit_loss := code_avg_pnl tradesBoth,
    strategies := strategies_of tradesBoth,
    strengths := strengths_list tradesBoth,
    weaknesses := weaknesses_list tradesBoth,
    suggestions := suggestions_list tradesBoth }

/-- An environment with both Supabase credentials present. -/
def envOK : Env := { SUPABASE_URL := some "u", SUPABASE_SERVICE_KEY := some "k" }

/-- A chat request whose only message is user-role with empty content. -/
def reqEmptyContent : ChatRequest :=
  { messages := [{ role := "user", content := "" }], user_id := "u1" }

/-- A chat request whose only message is user-role saying "hello". -/
def reqHello : ChatRequest :=
  { messages := [{ role := "user", content := "hello" }], user_id := "u1" }

/-- A store stub returning the three-trade example for every user. -/
def fetch3 : String → List Trade := fun _ => trades3

theorem length_cast_ne_zero (trades : List Trade) (h : trades ≠ []) :
    ((trades.length : ℚ)) ≠ 0 := by
  cases trades with
  | nil => exact absurd rfl h
  | cons a l =>
    simp only [List.length_cons, Nat.cast_ne_zero]
    exact Nat.succ_ne_zero _

theorem win_rate_expr_eq (trades : List Trade) (h : trades ≠ []) :
    win_rate_expr trades =
      some (((profitable_trades trades).length : ℚ) / (trades.length : ℚ)) := by
  cases trades with
  | nil => exact absurd rfl h
  | cons a l =>
    simp [win_rate_expr, pyDiv]
    positivity

theorem avg_pnl_expr_eq (trades : List Trade) (h : trades ≠ []) :
    avg_pnl_expr trades =
      some (((trades.map fun t => t.pnl.getD 0).sum) / (trades.length : ℚ)) := by
  cases trades with
  | nil => exact absurd rfl h
  | cons a l =>
    simp [avg_pnl_expr, pyDiv]
    positivity

theorem spec_win_rate_eq (trades : List Trade) :
    spec_win_rate trades =
      ((profitable_trades trades).length : ℚ) / (trades.length : ℚ) := by
  simp [spec_win_rate, profitable_trades, List.countP_eq_length_filter]

/-- Full characterization of `analyze_trades` on non-empty input. -/
theorem analyze_trades_nonempty (trades : List Trade) (h : trades ≠ []) :
    analyze_trades trades = some
      { win_rate := code_win_rate trades,
        avg_profit_loss := code_avg_pnl trades,
        strategies := strategies_of trades,
        strengths := strengths_list trades,
        weaknesses := weaknesses_list trades,
        suggestions := suggestions_list trades } := by
  have h1 : trades.isEmpty = false := by
    cases trades with
    | nil => exact absurd rfl h
    | cons a l => rfl
  unfold analyze_trades
  rw [win_rate_expr_eq trades h, avg_pnl_expr_eq trades h]
  simp [h1, strengths_list, weaknesses_list, suggestions_list, code_win_rate,
    code_avg_pnl, emotionalFlag, plannedFlag]

/-- C1: for an empty input collection, `analyze_trades` returns a
result with `win_rate = 0`, `avg_profit_loss = 0`, empty `strategies`,
`strengths` and `weaknesses`, and `suggestions` holding exactly the one
fixed onboarding message. -/
theorem c1_empty_input_result :
    analyze_trades [] = some
      { win_rate := 0, avg_profit_loss := 0, strategies := [],
        strengths := [], weaknesses := [],
        suggestions := [onboardingMessage] } := by decide

/-- C2: for every non-empty input, `analyze_trades` computes `win_rate`
as the count of records with `pnl > 0` over the total count and
`avg_profit_loss` as the sum of `pnl` over the total count, missing
`pnl` read as 0; on the three trades with pnl 10, -5, 20 this gives
`win_rate = 2/3` and `avg_profit_loss = 25/3`. -/
theorem c2_win_rate_and_avg (trades : List Trade) (h : trades ≠ []) :
    (∃ r, analyze_trades trades = some r ∧
      r.win_rate = spec_win_rate trades ∧
      r.avg_profit_loss = spec_avg_pnl trades) ∧
    (∃ r, analyze_trades trades3 = some r ∧
      r.win_rate = 2/3 ∧ r.avg_profit_loss = 25/3) := by
  constructor
  · refine ⟨_, analyze_trades_nonempty trades h, ?_, ?_⟩
    · show code_win_rate trades = spec_win_rate trades
      rw [spec_win_rate_eq]
      rfl
    · rfl
  · refine ⟨_, analyze_trades_nonempty trades3 (by decide), ?_, ?_⟩
    · show code_win_rate trades3 = 2/3
      norm_num [code_win_rate, profitable_trades, trades3, List.filter]
    · show code_avg_pnl trades3 = 25/3
      norm_num [code_avg_pnl, trades3]

/-- Witness for C2 at the spec's three-trade input. -/
theorem c2_win_rate_and_avg_witness :
    trades3 ≠ [] ∧
    ((∃ r, analyze_trades trades3 = some r ∧
      r.win_rate = spec_win_rate trades3 ∧
      r.avg_profit_loss = spec_avg_pnl trades3) ∧
    (∃ r, analyze_trades trades3 = some r ∧
      r.win_rate = 2/3 ∧ r.avg_profit_loss = 25/3)) :=
  ⟨by decide, c2_win_rate_and_avg trades3 (by decide)⟩

/-- C8: under the empty-input guard, the two division expressions of
`analyze_trades` are reached only with a non-empty collection: the
divisor is non-zero, each ternary takes its division branch, both
divisions succeed, and the whole analysis never raises. -/
theorem c8_division_guarded (trades : List Trade) (h : trades ≠ []) :
    ((trades.length : ℚ) ≠ 0) ∧
    win_rate_expr trades =
      pyDiv ((profitable_trades trades).length : ℚ) (trades.length : ℚ) ∧
    avg_pnl_expr trades =
      pyDiv ((trades.map fun t => t.pnl.getD 0).sum) (trades.length : ℚ) ∧
    (win_rate_expr trades).isSome = true ∧
    (avg_pnl_expr trades).isSome = true ∧
    (analyze_trades trades).isSome = true := by
  have h1 : trades.isEmpty = false := by
    cases trades with
    | nil => exact absurd rfl h
    | cons a l => rfl
  have hlen := length_cast_ne_zero trades h
  refine ⟨hlen, ?_, ?_, ?_, ?_, ?_⟩
  · simp [win_rate_expr, h1]
  · simp [avg_pnl_expr, h1]
  · rw [win_rate_expr_eq trades h]; rfl
  · rw [avg_pnl_expr_eq trades h]; rfl
  · rw [analyze_trades_nonempty trades h]; rfl

/-- Witness for C8 at the spec's three-trade input. -/
theorem c8_division_guarded_witness :
    trades3 ≠ [] ∧
    (((trades3.length : ℚ) ≠ 0) ∧
    win_rate_expr trades3 =
      pyDiv ((profitable_trades trades3).length : ℚ) (trades3.length : ℚ) ∧
    avg_pnl_expr trades3 =
      pyDiv ((trades3.map fun t => t.pnl.getD 0).sum) (trades3.length : ℚ) ∧
    (win_rate_expr trades3).isSome = true ∧
    (avg_pnl_expr trades3).isSome = true ∧
    (analyze_trades trades3).isSome = true) :=
  ⟨by decide, c8_division_guarded trades3 (by decide)⟩

/-- C9: when either Supabase credential is absent from the environment,
client construction fails with HTTP 500, and both endpoints fail with
that same error for every possible store content — the fetch is never
consulted. -/
theorem c9_missing_credentials (env : Env)
    (h : env.SUPABASE_URL = none ∨ env.SUPABASE_SERVICE_KEY = none) :
    get_supabase_client env =
      Except.error { status_code := 500, detail := "Missing Supabase credentials" } ∧
    (∀ fetch user_id, get_trade_analysis env fetch user_id =
      Except.error { status_code := 500, detail := "Missing Supabase credentials" }) ∧
    (∀ fetch choice req, chat env fetch choice req =
      Except.error { status_code := 500, detail := "Missing Supabase credentials" }) := by
  have hc : get_supabase_client env =
      Except.error { status_code := 500, detail := "Missing Supabase credentials" } := by
    rcases h with h | h <;> simp [get_supabase_client, h, truthyStr]
  refine ⟨hc, fun fetch user_id => ?_, fun fetch choice req => ?_⟩
  · simp [get_trade_analysis, hc, Except.bind]
  · simp [chat, hc, Except.bind]

/-- Witness for C9 with the URL missing. -/
theorem c9_missing_credentials_witness :
    (({ SUPABASE_URL := none, SUPABASE_SERVICE_KEY := some "k" } : Env).SUPABASE_URL = none ∨
     ({ SUPABASE_URL := none, SUPABASE_SERVICE_KEY := some "k" } : Env).SUPABASE_SERVICE_KEY = none) ∧
    (get_supabase_client { SUPABASE_URL := none, SUPABASE_SERVICE_KEY := some "k" } =
      Except.error { status_code := 500, detail := "Missing Supabase credentials" } ∧
    (∀ fetch user_id,
      get_trade_analysis { SUPABASE_URL := none, SUPABASE_SERVICE_KEY := some "k" } fetch user_id =
      Except.error { status_code := 500, detail := "Missing Supabase credentials" }) ∧
    (∀ fetch choice req,
      chat { SUPABASE_URL := none, SUPABASE_SERVICE_KEY := some "k" } fetch choice req =
      Except.error { status_code := 500, detail := "Missing Supabase credentials" })) :=
  ⟨Or.inl rfl, c9_missing_credentials _ (Or.inl rfl)⟩

/-- C3 counterexample: a whitespace-only `trade_type` passes the Python
truthiness filter and strips to the empty string, so `strategies` can
contain `""` — refuting "no element of strategies is the empty string". -/
theorem c3_empty_string_strategy :
    ((analyze_trades [{ pnl := none, trade_type := some " ", notes := none }]).map
      fun r => r.strategies) = some [""] := by
  rw [analyze_trades_nonempty _ (by decide)]
  decide

/-- C3 (amended): `strategies` is the duplicate-free set of stripped
`trade_type` values over the trades whose `trade_type` is present and
non-empty before stripping (an element may be the empty string when the
`trade_type` was whitespace-only); the scalp example yields exactly
`["scalp"]`. -/
theorem c3_strategies_set (trades : List Trade) (r : TradeAnalysisResult)
    (h : analyze_trades trades = some r) :
    r.strategies.Nodup ∧
    (∀ s, s ∈ r.strategies ↔
      ∃ t ∈ trades, truthyStr t.trade_type = true ∧ pyStrip (t.trade_type.getD "") = s) ∧
    (∃ r2, analyze_trades tradesScalp = some r2 ∧ r2.strategies = ["scalp"]) := by
  have hscalp : ∃ r2, analyze_trades tradesScalp = some r2 ∧ r2.strategies = ["scalp"] := by
    refine ⟨_, analyze_trades_nonempty tradesScalp (by decide), ?_⟩
    decide
  by_cases hne : trades = []
  · subst hne
    have h0 : analyze_trades [] = some
        { win_rate := 0, avg_profit_loss := 0, strategies := [],
          strengths := [], weaknesses := [],
          suggestions := [onboardingMessage] } := by decide
    rw [h0] at h
    cases h
    refine ⟨by decide, ?_, hscalp⟩
    intro s
    simp
  · rw [analyze_trades_nonempty trades hne] at h
    cases h
    refine ⟨List.nodup_dedup _, ?_, hscalp⟩
    intro s
    show s ∈ strategies_of trades ↔ _
    simp [strategies_of, List.mem_dedup, List.mem_map, List.mem_filter]
    constructor
    · rintro ⟨t, ⟨ht, htt⟩, he⟩
      exact ⟨t, ht, htt, he⟩
    · rintro ⟨t, ht, htt, he⟩
      exact ⟨t, ⟨ht, htt⟩, he⟩

/-- Witness for the amended C3 at the scalp example. -/
theorem c3_strategies_set_witness :
    analyze_trades tradesScalp = some scalpResult ∧
    (scalpResult.strategies.Nodup ∧
    (∀ s, s ∈ scalpResult.strategies ↔
      ∃ t ∈ tradesScalp, truthyStr t.trade_type = true ∧ pyStrip (t.trade_type.getD "") = s) ∧
    (∃ r2, analyze_trades tradesScalp = some r2 ∧ r2.strategies = ["scalp"])) :=
  ⟨analyze_trades_nonempty tradesScalp (by decide),
   c3_strategies_set tradesScalp scalpResult (analyze_trades_nonempty tradesScalp (by decide))⟩

theorem notes_nonempty_of_contains (trades : List Trade) (pat : String)
    (hp : pat.data ≠ [])
    (h : containsSub (pyLower (all_notes trades)) pat = true) :
    (all_notes trades).data.isEmpty = false := by
  cases hd : (all_notes trades).data with
  | nil =>
    rw [containsSub, pyLower, hd] at h
    cases hpd : pat.data with
    | nil => exact absurd hpd hp
    | cons c cs =>
      rw [hpd] at h
      simp [List.tails, List.isPrefixOf] at h
  | cons c cs => rfl

theorem emotional_rule (trades : List Trade) (hne : trades ≠ [])
    (h : containsSub (pyLower (all_notes trades)) "emotion" = true ∨
         containsSub (pyLower (all_notes trades)) "fear" = true ∨
         containsSub (pyLower (all_notes trades)) "greed" = true) :
    ∀ r, analyze_trades trades = some r →
      "Emotional trading noted in multiple trades" ∈ r.weaknesses ∧
      "Work on emotional discipline during trading" ∈ r.suggestions := by
  intro r hr
  have hflag : emotionalFlag trades = true := by
    rcases h with h | h | h
    · simp [emotionalFlag, notes_nonempty_of_contains trades "emotion" (by decide) h, h]
    · simp [emotionalFlag, notes_nonempty_of_contains trades "fear" (by decide) h, h]
    · simp [emotionalFlag, notes_nonempty_of_contains trades "greed" (by decide) h, h]
  rw [analyze_trades_nonempty trades hne] at hr
  cases hr
  constructor
  · show _ ∈ weaknesses_list trades
    simp [weaknesses_list, hflag]
  · show _ ∈ suggestions_list trades
    simp [suggestions_list, hflag]

theorem plan_rule (trades : List Trade) (hne : trades ≠ [])
    (h : containsSub (pyLower (all_notes trades)) "plan" = true) :
    ∀ r, analyze_trades trades = some r →
      "Evidence of trade planning in notes" ∈ r.strengths := by
  intro r hr
  have hflag : plannedFlag trades = true := by
    simp [plannedFlag, notes_nonempty_of_contains trades "plan" (by decide) h, h]
  rw [analyze_trades_nonempty trades hne] at hr
  cases hr
  show _ ∈ strengths_list trades
  simp [strengths_list, hflag]

theorem mem_ite_singleton {x y : String} {c : Prop} [Decidable c]
    (h : x ∈ (if c then [y] else [])) : x = y := by
  split at h
  · simpa using h
  · simp at h

/-- C6 counterexample: "plan" is not a substring of "complaint"
(the letters after "pla" are "int"), so notes reading "complaint" do
not trigger the planning strength. -/
theorem c6_complaint_no_plan :
    containsSub "complaint" "plan" = false ∧
    (∃ r, analyze_trades tradesComplaint = some r ∧
      "Evidence of trade planning in notes" ∉ r.strengths) := by
  refine ⟨by decide, ⟨_, analyze_trades_nonempty tradesComplaint (by decide), ?_⟩⟩
  intro hmem
  have hpf : plannedFlag tradesComplaint = false := by decide
  have h3 : ¬ (strategies_of tradesComplaint).length > 2 := by decide
  simp only [strengths_list, hpf, h3, if_false, List.append_nil, Bool.false_eq_true,
    ite_false] at hmem
  rcases List.mem_append.mp hmem with h | h
  · exact absurd (mem_ite_singleton h) (by decide)
  · exact absurd (mem_ite_singleton h) (by decide)

/-- C6 (amended): the space-joined non-empty notes are searched
case-insensitively; containing "emotion", "fear" or "greed" appends the
emotional-trading weakness and the discipline suggestion, containing
"plan" appends the planning strength, the rules are independent and can
both fire; matching is plain substring (not word-boundary-aware, e.g.
"explanation" triggers the plan rule) — but "complaint" does not
contain "plan" and does not trigger it. -/
theorem c6_notes_rules (trades : List Trade) (r : TradeAnalysisResult)
    (hne : trades ≠ []) (h : analyze_trades trades = some r) :
    ((containsSub (pyLower (all_notes trades)) "emotion" = true ∨
      containsSub (pyLower (all_notes trades)) "fear" = true ∨
      containsSub (pyLower (all_notes trades)) "greed" = true) →
      "Emotional trading noted in multiple trades" ∈ r.weaknesses ∧
      "Work on emotional discipline during trading" ∈ r.suggestions) ∧
    (containsSub (pyLower (all_notes trades)) "plan" = true →
      "Evidence of trade planning in notes" ∈ r.strengths) ∧
    containsSub "explanation" "plan" = true ∧
    containsSub "complaint" "plan" = false ∧
    (∃ r2, analyze_trades tradesBoth = some r2 ∧
      "Emotional trading noted in multiple trades" ∈ r2.weaknesses ∧
      "Work on emotional discipline during trading" ∈ r2.suggestions ∧
      "Evidence of trade planning in notes" ∈ r2.strengths) := by
  refine ⟨fun hc => emotional_rule trades hne hc r h,
          fun hc => plan_rule trades hne hc r h,
          by decide, by decide, ?_⟩
  have hb := analyze_trades_nonempty tradesBoth (by decide)
  have he := emotional_rule tradesBoth (by decide) (Or.inr (Or.inr (by decide))) _ hb
  have hp := plan_rule tradesBoth (by decide) (by decide) _ hb
  exact ⟨_, hb, he.1, he.2, hp⟩

/-- Witness for the amended C6 at the both-rules-fire input. -/
theorem c6_notes_rules_witness :
    tradesBoth ≠ [] ∧
    analyze_trades tradesBoth = some bothResult ∧
    (((containsSub (pyLower (all_notes tradesBoth)) "emotion" = true ∨
      containsSub (pyLower (all_notes tradesBoth)) "fear" = true ∨
      containsSub (pyLower (all_notes tradesBoth)) "greed" = true) →
      "Emotional trading noted in multiple trades" ∈ bothResult.weaknesses ∧
      "Work on emotional discipline during trading" ∈ bothResult.suggestions) ∧
    (containsSub (pyLower (all_notes tradesBoth)) "plan" = true →
      "Evidence of trade planning in notes" ∈ bothResult.strengths) ∧
    containsSub "explanation" "plan" = true ∧
    containsSub "complaint" "plan" = false ∧
    (∃ r2, analyze_trades tradesBoth = some r2 ∧
      "Emotional trading noted in multiple trades" ∈ r2.weaknesses ∧
      "Work on emotional discipline during trading" ∈ r2.suggestions ∧
      "Evidence of trade planning in notes" ∈ r2.strengths)) :=
  ⟨by decide, analyze_trades_nonempty tradesBoth (by decide),
   c6_notes_rules tradesBoth bothResult (by decide)
     (analyze_trades_nonempty tradesBoth (by decide))⟩

/-- C7: for non-empty input the rules are evaluated in the fixed order
win-rate, average-P&L, strategy-count, notes; each rule independently
appends its fixed string, so each output list is the concatenation of
the per-rule segments in that order; in particular when both the
win-rate and the P&L rule fire, "Below 50% win rate" precedes
"Negative average P&L" in the weaknesses. -/
theorem c7_rule_order (trades : List Trade) (hne : trades ≠ []) :
    (∃ r, analyze_trades trades = some r ∧
      r.strengths =
        (if code_win_rate trades > 1/2 then ["Above 50% win rate"] else []) ++
        (if code_avg_pnl trades > 0 then ["Positive average P&L"] else []) ++
        (if (strategies_of trades).length > 2 then
          ["Diverse trading approaches (" ++ toString (strategies_of trades).length ++
            " different strategies)"] else []) ++
        (if plannedFlag trades then ["Evidence of trade planning in notes"] else []) ∧
      r.weaknesses =
        (if code_win_rate trades > 1/2 then [] else ["Below 50% win rate"]) ++
        (if code_avg_pnl trades > 0 then [] else ["Negative average P&L"]) ++
        (if emotionalFlag trades then ["Emotional trading noted in multiple trades"] else []) ∧
      r.suggestions =
        (if code_win_rate trades > 1/2 then []
         else ["Focus on improving your win rate by reviewing losing trades"]) ++
        (if code_avg_pnl trades > 0 then []
         else ["Work on improving your average profit per trade"]) ++
        (if (strategies_of trades).length > 2 then []
         else ["Consider exploring more trading strategies to diversify your approach"]) ++
        (if emotionalFlag trades then ["Work on emotional discipline during trading"] else []) ∧
      (¬ code_win_rate trades > 1/2 → ¬ code_avg_pnl trades > 0 →
        r.weaknesses.take 2 = ["Below 50% win rate", "Negative average P&L"])) ∧
    (∃ r2, analyze_trades tradesBoth = some r2 ∧
      r2.weaknesses.take 2 = ["Below 50% win rate", "Negative average P&L"]) := by
  constructor
  · refine ⟨_, analyze_trades_nonempty trades hne, rfl, rfl, rfl, ?_⟩
    intro h1 h2
    show (weaknesses_list trades).take 2 = _
    rw [weaknesses_list, if_neg h1, if_neg h2]
    rfl
  · refine ⟨_, analyze_trades_nonempty tradesBoth (by decide), ?_⟩
    have h1 : ¬ code_win_rate tradesBoth > 1/2 := by
      norm_num [code_win_rate, profitable_trades, tradesBoth, List.filter]
    have h2 : ¬ code_avg_pnl tradesBoth > 0 := by
      norm_num [code_avg_pnl, tradesBoth]
    show (weaknesses_list tradesBoth).take 2 = _
    rw [weaknesses_list, if_neg h1, if_neg h2]
    rfl

/-- Witness for C7 at the both-rules-fire input. -/
theorem c7_rule_order_witness :
    tradesBoth ≠ [] ∧
    ((∃ r, analyze_trades tradesBoth = some r ∧
      r.strengths =
        (if code_win_rate tradesBoth > 1/2 then ["Above 50% win rate"] else []) ++
        (if code_avg_pnl tradesBoth > 0 then ["Positive average P&L"] else []) ++
        (if (strategies_of tradesBoth).length > 2 then
          ["Diverse trading approaches (" ++ toString (strategies_of tradesBoth).length ++
            " different strategies)"] else []) ++
        (if plannedFlag tradesBoth then ["Evidence of trade planning in notes"] else []) ∧
      r.weaknesses =
        (if code_win_rate tradesBoth > 1/2 then [] else ["Below 50% win rate"]) ++
        (if code_avg_pnl tradesBoth > 0 then [] else ["Negative average P&L"]) ++
        (if emotionalFlag tradesBoth then ["Emotional trading noted in multiple trades"] else []) ∧
      r.suggestions =
        (if code_win_rate tradesBoth > 1/2 then []
         else ["Focus on improving your win rate by reviewing losing trades"]) ++
        (if code_avg_pnl tradesBoth > 0 then []
         else ["Work on improving your average profit per trade"]) ++
        (if (strategies_of tradesBoth).length > 2 then []
         else ["Consider exploring more trading strategies to diversify your approach"]) ++
        (if emotionalFlag tradesBoth then ["Work on emotional discipline during trading"] else []) ∧
      (¬ code_win_rate tradesBoth > 1/2 → ¬ code_avg_pnl tradesBoth > 0 →
        r.weaknesses.take 2 = ["Below 50% win rate", "Negative average P&L"])) ∧
    (∃ r2, analyze_trades tradesBoth = some r2 ∧
      r2.weaknesses.take 2 = ["Below 50% win rate", "Negative average P&L"])) :=
  ⟨by decide, c7_rule_order tradesBoth (by decide)⟩

theorem default_suggestion_isSome (a : TradeAnalysisResult) :
    ∃ ds, default_suggestion a = some ds := by
  rcases hs : a.suggestions with _ | ⟨x, xs⟩
  · exact ⟨"maintaining a trading journal", by simp [default_suggestion, hs]⟩
  · exact ⟨x, by simp [default_suggestion, hs]⟩

theorem pyChoice_pair (choice : Nat) (x y : String) :
    ∃ s, pyChoice choice [x, y] = some s ∧ s ∈ [x, y] := by
  rcases Nat.mod_two_eq_zero_or_one choice with h | h
  · exact ⟨x, by simp [pyChoice, h], by simp⟩
  · exact ⟨y, by simp [pyChoice, h], by simp⟩

theorem coachResponses_pair (a : TradeAnalysisResult) (ds : String) (c : Category) :
    ∃ x y, coachResponses a ds c = [x, y] := by
  cases c
  · exact ⟨_, _, rfl⟩
  · exact ⟨_, _, rfl⟩
  · exact ⟨_, _, rfl⟩
  · exact ⟨_, _, rfl⟩

theorem string_ne_of_data_getElem (i : Nat) (s t : String)
    (h : s.data[i]? ≠ t.data[i]?) : s ≠ t :=
  fun he => h (by rw [he])

theorem data_prefix_getElem (p : String) (rest : List Char) (i : Nat)
    (h : i < p.data.length) : (p.data ++ rest)[i]? = p.data[i]? :=
  List.getElem?_append_left h

theorem tmplW1_ne_tmplD1 (a b : TradeAnalysisResult) : tmplW1 a ≠ tmplD1 b := by
  apply string_ne_of_data_getElem 0
  rw [tmplW1, tmplD1]
  simp only [String.data_append, List.append_assoc]
  rw [data_prefix_getElem _ _ 0 (by decide), data_prefix_getElem _ _ 0 (by decide)]
  decide

theorem tmplW1_ne_tmplD2 (a b : TradeAnalysisResult) (ds : String) :
    tmplW1 a ≠ tmplD2 b ds := by
  apply string_ne_of_data_getElem 0
  rw [tmplW1, tmplD2]
  simp only [String.data_append, List.append_assoc]
  rw [data_prefix_getElem _ _ 0 (by decide), data_prefix_getElem _ _ 0 (by decide)]
  decide

theorem tmplW2_ne_tmplD1 (a b : TradeAnalysisResult) : tmplW2 a ≠ tmplD1 b := by
  apply string_ne_of_data_getElem 0
  rw [tmplW2, tmplD1]
  simp only [String.data_append, List.append_assoc]
  rw [data_prefix_getElem _ _ 0 (by decide), data_prefix_getElem _ _ 0 (by decide)]
  decide

theorem tmplW2_ne_tmplD2 (a b : TradeAnalysisResult) (ds : String) :
    tmplW2 a ≠ tmplD2 b ds := by
  apply string_ne_of_data_getElem 31
  rw [tmplW2, tmplD2]
  simp only [String.data_append, List.append_assoc]
  rw [data_prefix_getElem _ _ 31 (by decide), data_prefix_getElem _ _ 31 (by decide)]
  decide

theorem coach_response_total (choice : Nat) (user_message : String)
    (a : TradeAnalysisResult) :
    ∃ s, generate_coach_response choice user_message a = some s := by
  obtain ⟨ds, hds⟩ := default_suggestion_isSome a
  obtain ⟨x, y, hxy⟩ := coachResponses_pair a ds (coachCategory user_message)
  obtain ⟨s, hs, _⟩ := pyChoice_pair choice x y
  refine ⟨s, ?_⟩
  rw [generate_coach_response, hds]
  show pyChoice choice (coachResponses a ds (coachCategory user_message)) = some s
  rw [hxy]
  exact hs

/-- C5: the Response Selector never raises — for every message, every
analysis (including one with all list fields empty) and every random
draw it returns a string, and the empty-list interpolation is the empty
joined string. -/
theorem c5_selector_total (choice : Nat) (user_message : String) (a : TradeAnalysisResult) :
    (∃ s, generate_coach_response choice user_message a = some s) ∧
    commaJoin [] = "" :=
  ⟨coach_response_total choice user_message a, rfl⟩

/-- C4: the returned string is always one of the templates of the
category selected by the fixed-priority keyword classification, and for
the message "What's my win rate?" it is a win-rate template and never a
default template, for every analysis value and random draw. -/
theorem c4_win_rate_classification (a : TradeAnalysisResult) (choice : Nat)
    (user_message : String) :
    (∃ ds s, default_suggestion a = some ds ∧
      generate_coach_response choice user_message a = some s ∧
      s ∈ coachResponses a ds (coachCategory user_message)) ∧
    coachCategory "What\x27s my win rate?" = Category.win_rate ∧
    (∃ ds s, default_suggestion a = some ds ∧
      generate_coach_response choice "What\x27s my win rate?" a = some s ∧
      s ∈ coachResponses a ds Category.win_rate ∧
      s ∉ coachResponses a ds Category.default) := by
  have hgen : ∀ msg : String, ∃ ds s, default_suggestion a = some ds ∧
      generate_coach_response choice msg a = some s ∧
      s ∈ coachResponses a ds (coachCategory msg) := by
    intro msg
    obtain ⟨ds, hds⟩ := default_suggestion_isSome a
    obtain ⟨x, y, hxy⟩ := coachResponses_pair a ds (coachCategory msg)
    obtain ⟨s, hs, hmem⟩ := pyChoice_pair choice x y
    refine ⟨ds, s, hds, ?_, ?_⟩
    · rw [generate_coach_response, hds]
      show pyChoice choice (coachResponses a ds (coachCategory msg)) = some s
      rw [hxy]
      exact hs
    · rw [hxy]
      exact hmem
  have hcat : coachCategory "What\x27s my win rate?" = Category.win_rate := by decide
  refine ⟨hgen user_message, hcat, ?_⟩
  obtain ⟨ds, s, hds, hg, hmem⟩ := hgen "What\x27s my win rate?"
  rw [hcat] at hmem
  refine ⟨ds, s, hds, hg, hmem, ?_⟩
  intro hd
  simp only [coachResponses, List.mem_cons, List.not_mem_nil, or_false] at hmem hd
  rcases hmem with h | h <;> rcases hd with h2 | h2
  · exact tmplW1_ne_tmplD1 a a (h.symm.trans h2)
  · exact tmplW1_ne_tmplD2 a a ds (h.symm.trans h2)
  · exact tmplW2_ne_tmplD1 a a (h.symm.trans h2)
  · exact tmplW2_ne_tmplD2 a a ds (h.symm.trans h2)

theorem analyze_trades_total (trades : List Trade) :
    ∃ r, analyze_trades trades = some r := by
  by_cases h : trades = []
  · subst h
    exact ⟨{ win_rate := 0, avg_profit_loss := 0, strategies := [],
             strengths := [], weaknesses := [],
             suggestions := [onboardingMessage] }, by decide⟩
  · exact ⟨_, analyze_trades_nonempty trades h⟩

theorem truthyStr_some_ne (msg : String) (h : msg ≠ "") :
    truthyStr (some msg) = true := by
  show (!msg.data.isEmpty) = true
  cases hd : msg.data with
  | nil => exact absurd (String.ext (show msg.data = "".data from hd)) h
  | cons c cs => rfl

/-- C10 counterexample: a request whose message list does contain a
user-role message (with empty content) still receives the fixed
no-message reply with no analysis — Python's `if not last_message`
treats the empty content as missing. -/
theorem c10_empty_content_shortcut :
    (∃ m ∈ reqEmptyContent.messages, m.role = "user") ∧
    chat envOK fetch3 0 reqEmptyContent =
      Except.ok { response := "I didn\x27t receive a message to respond to.",
                  analysis := none } :=
  ⟨⟨{ role := "user", content := "" }, by decide, rfl⟩, rfl⟩

theorem chat_unfold (env : Env) (fetch : String → List Trade) (choice : Nat)
    (req : ChatRequest) (c : SupabaseClient)
    (hclient : get_supabase_client env = Except.ok c) :
    chat env fetch choice req =
      if !truthyStr (last_user_message req.messages) then
        Except.ok { response := "I didn\x27t receive a message to respond to.",
                    analysis := none }
      else
        match analyze_trades (fetch req.user_id) with
        | none => Except.error { status_code := 500, detail := "Error processing chat" }
        | some analysis =>
          match generate_coach_response choice
              ((last_user_message req.messages).getD "") analysis with
          | none => Except.error { status_code := 500, detail := "Error processing chat" }
          | some resp => Except.ok { response := resp, analysis := some analysis } := by
  rw [chat, hclient]
  rfl

/-- C10 (amended): with credentials present, the chat endpoint answers
the content of the last user-role message only when that content is
non-empty; when no user-role message exists, or the last one has empty
content (Python truthiness), it returns the fixed no-message reply with
no analysis and independently of the store contents. -/
theorem c10_last_user_message (env : Env) (fetch : String → List Trade)
    (choice : Nat) (req : ChatRequest)
    (hu : truthyStr env.SUPABASE_URL = true)
    (hk : truthyStr env.SUPABASE_SERVICE_KEY = true) :
    ((∀ m ∈ req.messages, m.role ≠ "user") →
      chat env fetch choice req =
        Except.ok { response := "I didn\x27t receive a message to respond to.",
                    analysis := none }) ∧
    (last_user_message req.messages = some "" →
      chat env fetch choice req =
        Except.ok { response := "I didn\x27t receive a message to respond to.",
                    analysis := none }) ∧
    (∀ msg, last_user_message req.messages = some msg → msg ≠ "" →
      ∃ r s, analyze_trades (fetch req.user_id) = some r ∧
        generate_coach_response choice msg r = some s ∧
        chat env fetch choice req = Except.ok { response := s, analysis := some r }) := by
  have hclient : get_supabase_client env =
      Except.ok { url := env.SUPABASE_URL.getD "",
                  key := env.SUPABASE_SERVICE_KEY.getD "" } := by
    simp [get_supabase_client, hu, hk]
  rw [chat_unfold env fetch choice req _ hclient]
  refine ⟨?_, ?_, ?_⟩
  · intro hnone
    have hlast : last_user_message req.messages = none := by
      rw [last_user_message, List.find?_eq_none.mpr]
      · rfl
      · intro m hm
        simp [hnone m (List.mem_reverse.mp hm)]
    rw [hlast]
    rfl
  · intro hlast
    rw [hlast]
    rfl
  · intro msg hlast hne
    obtain ⟨r, hr⟩ := analyze_trades_total (fetch req.user_id)
    obtain ⟨s, hs⟩ := coach_response_total choice msg r
    refine ⟨r, s, hr, hs, ?_⟩
    rw [hlast, truthyStr_some_ne msg hne]
    simp [hr, hs]

/-- Witness for the amended C10 at a request saying "hello". -/
theorem c10_last_user_message_witness :
    truthyStr envOK.SUPABASE_URL = true ∧
    truthyStr envOK.SUPABASE_SERVICE_KEY = true ∧
    (((∀ m ∈ reqHello.messages, m.role ≠ "user") →
      chat envOK fetch3 0 reqHello =
        Except.ok { response := "I didn\x27t receive a message to respond to.",
                    analysis := none }) ∧
    (last_user_message reqHello.messages = some "" →
      chat envOK fetch3 0 reqHello =
        Except.ok { response := "I didn\x27t receive a message to respond to.",
                    analysis := none }) ∧
    (∀ msg, last_user_message reqHello.messages = some msg → msg ≠ "" →
      ∃ r s, analyze_trades (fetch3 reqHello.user_id) = some r ∧
        generate_coach_response 0 msg r = some s ∧
        chat envOK fetch3 0 reqHello = Except.ok { response := s, analysis := some r })) :=
  ⟨by decide, by decide,
   c10_last_user_message envOK fetch3 0 reqHello (by decide) (by decide)⟩
